import Mathlib

/-!
Verification development for the remote-rig hardware service
(src/hardware-service/main.py): a FastAPI endpoint `set_led` that
normalizes an integer LED command, formats it as a serial wire line
"LED 0\n" or "LED 1\n", writes the UTF-8 bytes to a shared pyserial
connection, flushes, and returns a JSON acknowledgement.
-/

namespace RemoteRig

/-- Python truthiness of an `int`: `bool(n)` is `True` iff `n ≠ 0`.
This is the condition evaluated by `1 if cmd.state else 0`. -/
def pyTruthy (n : Int) : Bool := n != 0

/-- `state = 1 if cmd.state else 0` in `set_led`: the normalization of the
incoming integer to the two wire values 0 (Off) and 1 (On). -/
def normalize (n : Int) : Nat := if pyTruthy n then 1 else 0

/-- The pydantic request model `LedCommand` with its single field
`state : int` (arbitrary signed integer). -/
structure LedCommand where
  state : Int
  deriving Repr, DecidableEq

/-- `command_str = f"LED \x7bstate\x7d\n"`: the wire line built from the
normalized state (Python `str` of the integer between the literal prefix
`"LED "` and the trailing newline). -/
def formatLine (state : Nat) : String := "LED " ++ toString state ++ "\n"

/-- The ASCII whitespace characters removed by Python `str.strip()`
(space, tab, newline, carriage return, vertical tab, form feed). The
strings this program strips are pure ASCII, where `str.strip()` removes
exactly these characters. -/
def isPySpace (c : Char) : Bool :=
  c = ' ' || c = '\t' || c = '\n' || c = '\r' || c = '\x0b' || c = '\x0c'

/-- Python `str.strip()` on an ASCII string: drop leading and trailing
whitespace characters. -/
def pyStrip (s : String) : String :=
  ⟨((s.data.dropWhile isPySpace).reverse.dropWhile isPySpace).reverse⟩

/-- UTF-8 encoding of a single character (code point), as produced by
Python `str.encode("utf-8")`: 1 to 4 bytes depending on code-point range,
each byte given as a natural number below 256. -/
def utf8Char (c : Char) : List Nat :=
  let n := c.toNat
  if n < 128 then [n]
  else if n < 2048 then [192 + n / 64, 128 + n % 64]
  else if n < 65536 then [224 + n / 4096, 128 + (n / 64) % 64, 128 + n % 64]
  else [240 + n / 262144, 128 + (n / 4096) % 64, 128 + (n / 64) % 64, 128 + n % 64]

/-- UTF-8 encoding of a string, as `s.encode("utf-8")`: the concatenation
of the encodings of its characters. -/
def utf8Encode (s : String) : List Nat := (s.data.map utf8Char).flatten

/-- The JSON acknowledgement returned by `set_led` on success:
`"status": "ok"` and `"sent": command_str.strip()`. -/
structure Ack where
  status : String
  sent : String
  deriving Repr, DecidableEq

/-- The endpoint `set_led`, with the serial side effect made explicit:
the first component is the byte sequence passed to `ser.write`
(`command_str.encode("utf-8")`), the second the returned JSON body
`\x7b"status": "ok", "sent": command_str.strip()\x7d`. -/
def set_led (cmd : LedCommand) : List Nat × Ack :=
  let state := normalize cmd.state
  let command_str := formatLine state
  (utf8Encode command_str, ⟨"ok", pyStrip command_str⟩)

/-- The per-request transport failures of the serial layer
(pyserial exceptions surfaced by `write`/`flush`). -/
inductive TransportError where
  | timeout
  | disconnected
  deriving Repr, DecidableEq

/-- A behaviour of the open serial device during one request: whether the
`write` of a given byte sequence raises, and whether `flush` raises. -/
structure SerialBehavior where
  writeErr : List Nat → Option TransportError
  flushErr : Option TransportError

/-- `set_led` run against a serial behaviour, with Python exceptions made
explicit: `ser.write(command_str.encode("utf-8"))` first, then
`ser.flush()`, then the acknowledgement. The function body has no
try/except, so a raise at either step aborts the handler and propagates
the same error; the `return` is reached only after both steps succeed. -/
def set_led_run (sb : SerialBehavior) (cmd : LedCommand) :
    Except TransportError Ack :=
  let state := normalize cmd.state
  let command_str := formatLine state
  match sb.writeErr (utf8Encode command_str) with
  | some e => .error e
  | none =>
    match sb.flushErr with
    | some e => .error e
    | none => .ok ⟨"ok", pyStrip command_str⟩

/-- The configuration of a pyserial `serial.Serial` object, restricted to
the parameters this program touches. In pyserial's constructor the
positional/keyword parameter `timeout` is the READ timeout and
`write_timeout` is a distinct parameter defaulting to `None`; with
`write_timeout=None` a blocking `write` waits without bound and never
raises `SerialTimeoutException`. Timeouts are in seconds, `none` = no
bound. -/
structure SerialConfig where
  port : String
  baudrate : Nat
  timeout : Option Nat
  write_timeout : Option Nat
  deriving Repr, DecidableEq

/-- `SERIAL_PORT = "/dev/tty.usbmodem11202"` -/
def SERIAL_PORT : String := "/dev/tty.usbmodem11202"

/-- `BAUD_RATE = 115200` -/
def BAUD_RATE : Nat := 115200

/-- `ser = serial.Serial(SERIAL_PORT, BAUD_RATE, timeout=1)`: only the
read timeout is passed; `write_timeout` keeps its pyserial default
`None`. -/
def ser : SerialConfig :=
  { port := SERIAL_PORT, baudrate := BAUD_RATE,
    timeout := some 1, write_timeout := none }

/-- A serial configuration bounds the duration of a blocking write (so
that a too-slow write raises a typed timeout error) exactly when a write
timeout is configured. -/
def writeTimeoutBounded (c : SerialConfig) : Bool := c.write_timeout.isSome

/-- C1: normalizing a command state `n` (the expression
`1 if cmd.state else 0`) yields 0 (Off) iff `n = 0`, and yields 1 (On)
for every nonzero `n`, negative values and large magnitudes included. -/
theorem normalize_off_iff_zero (n : Int) :
    (normalize n = 0 ↔ n = 0) ∧ (n ≠ 0 → normalize n = 1) := by
  unfold normalize pyTruthy
  by_cases h : n = 0 <;> simp [h]

/-- Witness for C1 at the nonzero (negative) input `-3`. -/
theorem normalize_off_iff_zero_w :
    (-3 : Int) ≠ 0 ∧ normalize (-3) = 1 :=
  ⟨by decide, (normalize_off_iff_zero (-3)).2 (by decide)⟩

/-- C2: formatting the normalized state is deterministic and yields only
two strings: 0 (Off) gives exactly "LED 0\n", 1 (On) gives exactly
"LED 1\n", and for every input to `set_led` the built `command_str` is
one of these two strings. -/
theorem formatLine_two_strings :
    formatLine 0 = "LED 0\n" ∧ formatLine 1 = "LED 1\n" ∧
    ∀ cmd : LedCommand,
      formatLine (normalize cmd.state) = "LED 0\n" ∨
      formatLine (normalize cmd.state) = "LED 1\n" := by
  refine ⟨rfl, rfl, fun cmd => ?_⟩
  unfold normalize
  by_cases h : pyTruthy cmd.state <;> simp [h] <;> decide

/-- C3: `set_led` on state 0 writes exactly the UTF-8 bytes of "LED 0\n"
(the six ASCII bytes 76 69 68 32 48 10) and returns the body
`status = "ok"`, `sent = "LED 0"`. -/
theorem set_led_state_zero :
    set_led ⟨0⟩ = (utf8Encode "LED 0\n", ⟨"ok", "LED 0"⟩) ∧
    utf8Encode "LED 0\n" = [76, 69, 68, 32, 48, 10] :=
  ⟨rfl, rfl⟩

/-- C4: `set_led` on state 7 writes exactly the bytes of "LED 1\n" and
returns `sent = "LED 1"`; on state -3 it likewise writes "LED 1\n"
(negative values are nonzero, hence On). -/
theorem set_led_state_nonzero :
    (set_led ⟨7⟩).1 = utf8Encode "LED 1\n" ∧
    (set_led ⟨7⟩).2.sent = "LED 1" ∧
    (set_led ⟨-3⟩).1 = utf8Encode "LED 1\n" ∧
    utf8Encode "LED 1\n" = [76, 69, 68, 32, 49, 10] :=
  ⟨rfl, rfl, rfl, rfl⟩

/-- C5: for every input, the `sent` field of the success response equals
the wire line with only its trailing newline removed: appending "\n" to
`sent` reconstructs exactly the wire line, and the bytes written are the
encoding of that reconstruction. The `.strip()` removes nothing else on
any producible wire line. -/
theorem sent_reconstructs_wire (cmd : LedCommand) :
    (set_led cmd).2.sent ++ "\n" = formatLine (normalize cmd.state) ∧
    (set_led cmd).1 = utf8Encode ((set_led cmd).2.sent ++ "\n") := by
  unfold set_led
  by_cases h : pyTruthy cmd.state <;> simp [normalize, h] <;> exact ⟨rfl, rfl⟩

/-- C6: the `ok` acknowledgement is returned only after both the serial
write and the flush complete without raising; a failure of the write, or
of the flush after a successful write, yields no acknowledgement and
propagates the same error unchanged (no recovery, retry or logging in
`set_led`). -/
theorem set_led_run_error_propagation (sb : SerialBehavior) (cmd : LedCommand) :
    (∀ a, set_led_run sb cmd = .ok a →
      sb.writeErr (set_led cmd).1 = none ∧ sb.flushErr = none) ∧
    (∀ e, sb.writeErr (set_led cmd).1 = some e →
      set_led_run sb cmd = .error e) ∧
    (∀ e, sb.writeErr (set_led cmd).1 = none → sb.flushErr = some e →
      set_led_run sb cmd = .error e) := by
  refine ⟨fun a ha => ?_, fun e he => ?_, fun e hw hf => ?_⟩
  · unfold set_led_run at ha
    unfold set_led
    cases hw : sb.writeErr (utf8Encode (formatLine (normalize cmd.state))) with
    | some e => simp [hw] at ha
    | none =>
      cases hf : sb.flushErr with
      | some e => simp [hw, hf] at ha
      | none => exact ⟨rfl, rfl⟩
  · unfold set_led at he
    unfold set_led_run
    simp [he]
  · unfold set_led at hw
    unfold set_led_run
    simp [hw, hf]

/-- Witness for C6: a behaviour whose flush raises a timeout after a
successful write makes `set_led_run` return that very error. -/
theorem set_led_run_error_propagation_w :
    set_led_run ⟨fun _ => none, some .timeout⟩ ⟨0⟩ = .error .timeout :=
  (set_led_run_error_propagation ⟨fun _ => none, some .timeout⟩ ⟨0⟩).2.2
    .timeout rfl rfl

/-- C7 counterexample: the claim that the configured timeout bounds how
long the serial write blocks is false for the configuration the code
builds: `serial.Serial(SERIAL_PORT, BAUD_RATE, timeout=1)` sets only the
read timeout, leaving `write_timeout` at its default `None`, so the
write is not bounded by a typed timeout error. -/
theorem ser_write_not_bounded : writeTimeoutBounded ser = false := rfl

/-- C7 amended: the code configures only a read timeout of 1 second on
the Serial object (`timeout=1`); no write timeout is configured
(`write_timeout = None`), so a serial write that does not complete is
not interrupted by a `TransportError` timeout. -/
theorem ser_read_timeout_only :
    ser.timeout = some 1 ∧ ser.write_timeout = none ∧
    writeTimeoutBounded ser = false :=
  ⟨rfl, rfl, rfl⟩

/-- C9: for every input to `set_led`, UTF-8 encoding the command string
yields exactly one byte per character, every byte is in the ASCII range
(below 128), and the byte sequence ends with exactly one newline byte
(10) as its last byte. -/
theorem wire_bytes_ascii (cmd : LedCommand) :
    ((set_led cmd).1).length = (formatLine (normalize cmd.state)).length ∧
    ((set_led cmd).1).all (fun b => decide (b < 128)) = true ∧
    ((set_led cmd).1).getLast? = some 10 ∧
    ((set_led cmd).1).count 10 = 1 := by
  unfold set_led
  by_cases h : pyTruthy cmd.state <;> simp [normalize, h] <;> decide

/-- C10: `set_led` is deterministic in its input: two commands with equal
`state` fields produce identical written byte sequences and identical
responses, and identical outcomes against any one serial behaviour;
nothing besides `cmd.state` influences the result. -/
theorem set_led_deterministic (c1 c2 : LedCommand) (h : c1.state = c2.state) :
    set_led c1 = set_led c2 ∧
    ∀ sb : SerialBehavior, set_led_run sb c1 = set_led_run sb c2 := by
  cases c1; cases c2; cases h; exact ⟨rfl, fun _ => rfl⟩

/-- Witness for C10 at state 5. -/
theorem set_led_deterministic_w :
    set_led ⟨5⟩ = set_led ⟨5⟩ ∧
    ∀ sb : SerialBehavior, set_led_run sb ⟨5⟩ = set_led_run sb ⟨5⟩ :=
  set_led_deterministic ⟨5⟩ ⟨5⟩ rfl

end RemoteRig
